import Mathlib

/-!
Shallow embedding of internal/alertmanager/upstream.go: the upstream
registry and Alertmanager descriptor construction of the karma/unsee
alert dashboard.  The global map of upstreams is made an explicit
registry value that every operation threads; Go pointers to descriptors
become descriptor values; the variadic functional options become a list
of functions from descriptor to Except.
-/

set_option autoImplicit false

namespace Upstream

/-- Opaque entity models.AlertGroup; this core copies it verbatim. -/
structure AlertGroup where
  payload : Nat
deriving DecidableEq, Repr

/-- Opaque entity models.Silence; keyed by its backend-assigned ID. -/
structure Silence where
  payload : Nat
deriving DecidableEq, Repr

/-- Opaque entity models.Autocomplete. -/
structure Autocomplete where
  payload : Nat
deriving DecidableEq, Repr

/-- Opaque per-label color assignment models.LabelColors. -/
structure LabelColors where
  payload : Nat
deriving DecidableEq, Repr

/-- models.LabelsColorMap: mapping from (label name, label value) to colors,
modelled as an association list. -/
abbrev LabelsColorMap := List ((String × String) × LabelColors)

/-- Opaque http.RoundTripper strategy. -/
structure RoundTripper where
  payload : Nat
deriving DecidableEq, Repr

/-- transport.Transport as bound by NewTransport: the final URI, the timeout
and the optional override the adapter was built from. -/
structure Transport where
  uri : String
  timeout : Int
  override : Option RoundTripper
deriving DecidableEq, Repr

/-- alertmanagerMetrics: fetch-error counters keyed by category label.
Go stores float64 values; in the shown fragment they are only ever
initialised to 0, so Nat suffices. -/
structure alertmanagerMetrics where
  errors : List (String × Nat)
deriving DecidableEq, Repr

/-- Label for the alert-fetch error counter (declared outside the shown
fragment; only its identity matters here). -/
def labelValueErrorsAlerts : String := "alerts"

/-- Label for the silence-fetch error counter (declared outside the shown
fragment; only its identity matters here). -/
def labelValueErrorsSilences : String := "silences"

/-- The Alertmanager source descriptor.  The struct declaration lives
outside the shown fragment; fields are the ones used by upstream.go
(the sync.RWMutex lock is omitted: it has no data content). -/
structure Alertmanager where
  Name : String
  URI : String
  RequestTimeout : Int
  ProxyRequests : Bool
  httpTransport : Option RoundTripper
  transport : Option Transport
  alertGroups : List AlertGroup
  silences : List (String × Silence)
  colors : LabelsColorMap
  autocomplete : List Autocomplete
  metrics : alertmanagerMetrics
deriving DecidableEq, Repr

/-- One nanosecond-count second, as in Go time.Second. -/
def timeSecond : Int := 1000000000

/-- Option allows to pass functional options to NewAlertmanager. -/
abbrev AMOption := Alertmanager → Except String Alertmanager

/-- The descriptor literal built at the top of NewAlertmanager: identity
from the arguments, 10-second default timeout, empty snapshot, zeroed
error counters, Go zero values for the remaining fields. -/
def initAlertmanager (name uri : String) : Alertmanager :=
  { Name := name
    URI := uri
    RequestTimeout := 10 * timeSecond
    ProxyRequests := false
    httpTransport := none
    transport := none
    alertGroups := []
    silences := []
    colors := []
    autocomplete := []
    metrics := { errors := [(labelValueErrorsAlerts, 0), (labelValueErrorsSilences, 0)] } }

/-- The option loop of NewAlertmanager: apply each option in order,
aborting with the first error. -/
def applyOptions : Alertmanager → List AMOption → Except String Alertmanager
  | am, [] => .ok am
  | am, o :: rest =>
    match o am with
    | .error e => .error e
    | .ok am' => applyOptions am' rest

/-- NewAlertmanager.  The transport.NewTransport binder is not part of the
shown fragment, so it is passed in as nt.  The Go function returns a
(pointer, error) pair: option failure yields (nil, err), transport-binding
failure yields the partially built descriptor alongside the error, success
yields (descriptor, nil).  We mirror that with an Option x Option pair. -/
def NewAlertmanager (nt : String → Int → Option RoundTripper → Except String Transport)
    (name uri : String) (opts : List AMOption) : Option Alertmanager × Option String :=
  match applyOptions (initAlertmanager name uri) opts with
  | .error e => (none, some e)
  | .ok am =>
    match nt am.URI am.RequestTimeout am.httpTransport with
    | .error e => (some am, some e)
    | .ok t => (some { am with transport := some t }, none)

/-- Modelled from the spec: transport.NewTransport (code outside the shown
fragment) binds a Transport Adapter from the final URI, timeout and
optional override; per sections 4.2 and 7 its only failure is a malformed
URI, so on the well-formed URIs used in the concrete instances below it
succeeds. -/
def specNewTransport (uri : String) (timeout : Int) (override : Option RoundTripper) :
    Except String Transport :=
  .ok { uri := uri, timeout := timeout, override := override }

/-- WithProxy option: sets ProxyRequests, never fails. -/
def WithProxy (proxied : Bool) : AMOption :=
  fun am => .ok { am with ProxyRequests := proxied }

/-- WithRequestTimeout option: sets RequestTimeout to the given duration,
never fails (the shown code performs no positivity check). -/
def WithRequestTimeout (timeout : Int) : AMOption :=
  fun am => .ok { am with RequestTimeout := timeout }

/-- WithHTTPTransport option: installs a custom round tripper, never fails. -/
def WithHTTPTransport (t : RoundTripper) : AMOption :=
  fun am => .ok { am with httpTransport := some t }

/-- The registration errors of RegisterAlertmanager, carrying exactly the
data interpolated into the Go error messages: "Alertmanager upstream NAME
already exist" and "Alertmanager upstream NAME already collects from URI". -/
inductive RegisterError where
  | duplicateName (name : String)
  | duplicateSource (existingName existingURI : String)
deriving DecidableEq, Repr

/-- The global upstreams map, made explicit: descriptors keyed by name. -/
abbrev Registry := List (String × Alertmanager)

/-- RegisterAlertmanager: reject a duplicate name, then a duplicate URI
(naming the conflicting existing entry), otherwise insert.  Returns the
new registry together with the error, mirroring mutation of the global
map plus the returned error. -/
def RegisterAlertmanager (r : Registry) (am : Alertmanager) :
    Registry × Option RegisterError :=
  if (r.find? fun p => p.1 = am.Name).isSome then
    (r, some (.duplicateName am.Name))
  else
    match r.find? (fun p => p.2.URI = am.URI) with
    | some p => (r, some (.duplicateSource p.2.Name p.2.URI))
    | none => (r ++ [(am.Name, am)], none)

/-- GetAlertmanagers: the list of all registered descriptors (Go iterates
the map in unspecified order; the spec calls the result unordered). -/
def GetAlertmanagers (r : Registry) : List Alertmanager :=
  r.map (fun p => p.2)

/-- GetAlertmanagerByName: the descriptor under the name, or the explicit
nil / none signal when absent. -/
def GetAlertmanagerByName (r : Registry) (name : String) : Option Alertmanager :=
  match r.find? (fun p => p.1 = name) with
  | some p => some p.2
  | none => none

/-- Sequential registration of a list of descriptors, stopping at the
first failure (the startup loop of the embedding); some r on full success. -/
def registerAll : Registry → List Alertmanager → Option Registry
  | r, [] => some r
  | r, am :: rest =>
    match RegisterAlertmanager r am with
    | (r', none) => registerAll r' rest
    | (_, some _) => none

/-! Helper lemmas shared by the claim theorems. -/

/-- RegisterAlertmanager when the name check fires. -/
theorem register_eq_of_name_found (r : Registry) (am : Alertmanager)
    (h : (r.find? fun p => p.1 = am.Name).isSome) :
    RegisterAlertmanager r am = (r, some (.duplicateName am.Name)) := by
  simp [RegisterAlertmanager, h]

/-- RegisterAlertmanager when the name check passes and the URI check fires. -/
theorem register_eq_of_uri_found (r : Registry) (am : Alertmanager) (pe : String × Alertmanager)
    (hn : (r.find? fun p => p.1 = am.Name) = none)
    (hu : (r.find? fun p => p.2.URI = am.URI) = some pe) :
    RegisterAlertmanager r am = (r, some (.duplicateSource pe.2.Name pe.2.URI)) := by
  simp [RegisterAlertmanager, hn, hu]

/-- RegisterAlertmanager succeeds exactly when both checks pass, and then
appends the entry. -/
theorem register_success_iff (r : Registry) (am : Alertmanager) (r' : Registry) :
    RegisterAlertmanager r am = (r', none) ↔
      (r.find? fun p => p.1 = am.Name) = none ∧
      (r.find? fun p => p.2.URI = am.URI) = none ∧
      r' = r ++ [(am.Name, am)] := by
  unfold RegisterAlertmanager
  cases hn : r.find? fun p => p.1 = am.Name with
  | some p => simp [hn]
  | none =>
    cases hu : r.find? fun p => p.2.URI = am.URI with
    | some p => simp [hn, hu]
    | none => simp [hn, hu, eq_comm]

/-- GetAlertmanagerByName is find? followed by the value projection. -/
theorem getByName_eq_find (r : Registry) (n : String) :
    GetAlertmanagerByName r n = (r.find? fun p => p.1 = n).map (fun p => p.2) := by
  unfold GetAlertmanagerByName
  cases r.find? fun p => p.1 = n <;> rfl

/-- GetAlertmanagerByName is populated exactly when find? is. -/
theorem getByName_isSome_iff (r : Registry) (n : String) :
    (GetAlertmanagerByName r n).isSome = (r.find? fun p => p.1 = n).isSome := by
  rw [getByName_eq_find]
  cases r.find? fun p => p.1 = n <;> rfl

/-- The not-found signal of GetAlertmanagerByName is exactly the absence of
the name among the registry keys. -/
theorem getByName_none_iff (r : Registry) (n : String) :
    GetAlertmanagerByName r n = none ↔ (r.find? fun p => p.1 = n) = none := by
  rw [getByName_eq_find]
  cases r.find? fun p => p.1 = n <;> simp

/-! Sample descriptors for the concrete instances. -/

/-- Sample descriptor: name primary, URI http://a.example/api. -/
def amA : Alertmanager := initAlertmanager "primary" "http://a.example/api"

/-- Sample descriptor: name secondary, URI http://b.example/api. -/
def amB : Alertmanager := initAlertmanager "secondary" "http://b.example/api"

/-- Sample descriptor colliding with amA on name only. -/
def amA2 : Alertmanager := initAlertmanager "primary" "http://c.example/api"

/-- Sample descriptor colliding with amA on URI only. -/
def amC : Alertmanager := initAlertmanager "tertiary" "http://a.example/api"

/-- Sample descriptor with fresh name and URI relative to regAB. -/
def amD : Alertmanager := initAlertmanager "standby" "http://d.example/api"

/-- A registry holding amA and amB. -/
def regAB : Registry := [("primary", amA), ("secondary", amB)]

/-- Claim C1: registering a descriptor whose name is already a registry key
fails with the duplicate-name error and leaves the registry unchanged:
every lookup returns what it returned before, so the existing entry under
that name keeps its URI, proxy flag, timeout and transport options, and no
entry is added or removed. -/
theorem register_duplicateName_unchanged (r : Registry) (am : Alertmanager)
    (h : (GetAlertmanagerByName r am.Name).isSome) :
    (RegisterAlertmanager r am).2 = some (RegisterError.duplicateName am.Name) ∧
    (RegisterAlertmanager r am).1 = r ∧
    ∀ n, GetAlertmanagerByName (RegisterAlertmanager r am).1 n = GetAlertmanagerByName r n := by
  rw [getByName_isSome_iff] at h
  rw [register_eq_of_name_found r am h]
  exact ⟨rfl, rfl, fun n => rfl⟩

theorem register_duplicateName_unchanged_witness :
    (RegisterAlertmanager regAB amA2).2 = some (RegisterError.duplicateName amA2.Name) ∧
    (RegisterAlertmanager regAB amA2).1 = regAB ∧
    ∀ n, GetAlertmanagerByName (RegisterAlertmanager regAB amA2).1 n =
      GetAlertmanagerByName regAB n :=
  register_duplicateName_unchanged regAB amA2 (by decide)

/-- Claim C2: registering a descriptor whose name is fresh but whose URI is
already taken fails with the duplicate-source error naming the conflicting
registered entry, and the registry is unchanged. -/
theorem register_duplicateSource_unchanged (r : Registry) (am : Alertmanager)
    (hn : GetAlertmanagerByName r am.Name = none)
    (hu : (r.find? fun p => p.2.URI = am.URI).isSome) :
    (RegisterAlertmanager r am).1 = r ∧
    (∀ n, GetAlertmanagerByName (RegisterAlertmanager r am).1 n = GetAlertmanagerByName r n) ∧
    ∃ ex ∈ GetAlertmanagers r, ex.URI = am.URI ∧
      (RegisterAlertmanager r am).2 = some (RegisterError.duplicateSource ex.Name ex.URI) := by
  rw [getByName_none_iff] at hn
  obtain ⟨pe, hpe⟩ := Option.isSome_iff_exists.mp hu
  rw [register_eq_of_uri_found r am pe hn hpe]
  refine ⟨rfl, fun n => rfl, pe.2, ?_, ?_, rfl⟩
  · exact List.mem_map_of_mem _ (List.mem_of_find?_eq_some hpe)
  · have := List.find?_some hpe
    simpa using this

theorem register_duplicateSource_unchanged_witness :
    (RegisterAlertmanager regAB amC).1 = regAB ∧
    (∀ n, GetAlertmanagerByName (RegisterAlertmanager regAB amC).1 n =
      GetAlertmanagerByName regAB n) ∧
    ∃ ex ∈ GetAlertmanagers regAB, ex.URI = amC.URI ∧
      (RegisterAlertmanager regAB amC).2 =
        some (RegisterError.duplicateSource ex.Name ex.URI) :=
  register_duplicateSource_unchanged regAB amC (by decide) (by decide)

/-- Claim C9: when both the name and the URI collide, the name check fires
first and the result is the duplicate-name error; in particular registering
the same descriptor twice reports duplicate name, not duplicate source. -/
theorem register_bothCollide_duplicateName (r : Registry) (am : Alertmanager)
    (h1 : (GetAlertmanagerByName r am.Name).isSome)
    (_h2 : (r.find? fun p => p.2.URI = am.URI).isSome) :
    RegisterAlertmanager r am = (r, some (RegisterError.duplicateName am.Name)) := by
  rw [getByName_isSome_iff] at h1
  exact register_eq_of_name_found r am h1

theorem register_bothCollide_duplicateName_witness :
    RegisterAlertmanager (RegisterAlertmanager [] amA).1 amA =
      ((RegisterAlertmanager [] amA).1, some (RegisterError.duplicateName amA.Name)) :=
  register_bothCollide_duplicateName (RegisterAlertmanager [] amA).1 amA
    (by decide) (by decide)

/-- Claim C10: after a successful registration, looking the descriptor up by
its name returns exactly it, and every other name resolves to the same
result as before the registration. -/
theorem register_getByName_roundtrip (r : Registry) (am : Alertmanager) (r' : Registry)
    (h : RegisterAlertmanager r am = (r', none)) :
    GetAlertmanagerByName r' am.Name = some am ∧
    ∀ n, n ≠ am.Name → GetAlertmanagerByName r' n = GetAlertmanagerByName r n := by
  obtain ⟨hn, _hu, hr⟩ := (register_success_iff r am r').mp h
  subst hr
  constructor
  · rw [getByName_eq_find, List.find?_append, hn]
    simp [List.find?]
  · intro n hne
    rw [getByName_eq_find, getByName_eq_find, List.find?_append]
    have hsingle : (([(am.Name, am)] : Registry).find? fun p => p.1 = n) = none := by
      simp [List.find?, Ne.symm hne]
    rw [hsingle]
    cases r.find? fun p => p.1 = n <;> rfl

theorem register_getByName_roundtrip_witness :
    GetAlertmanagerByName (RegisterAlertmanager regAB amD).1 amD.Name = some amD ∧
    ∀ n, n ≠ amD.Name →
      GetAlertmanagerByName (RegisterAlertmanager regAB amD).1 n =
        GetAlertmanagerByName regAB n :=
  register_getByName_roundtrip regAB amD (RegisterAlertmanager regAB amD).1 (by decide)

/-- Claim C4: GetAlertmanagerByName returns a registered descriptor exactly
when one carries the requested name, and returns the explicit none signal
exactly when no registered entry has the name, so none can never be
mistaken for a registered-but-empty result. -/
theorem getByName_found_or_explicit_none (r : Registry) (n : String) :
    (∀ am, GetAlertmanagerByName r n = some am → ∃ p ∈ r, p.1 = n ∧ p.2 = am) ∧
    (GetAlertmanagerByName r n = none ↔ ∀ p ∈ r, p.1 ≠ n) := by
  constructor
  · intro am ham
    rw [getByName_eq_find] at ham
    obtain ⟨pe, hpe, hval⟩ := Option.map_eq_some'.mp ham
    refine ⟨pe, List.mem_of_find?_eq_some hpe, ?_, hval⟩
    have := List.find?_some hpe
    simpa using this
  · rw [getByName_none_iff, List.find?_eq_none]
    simp

theorem getByName_found_or_explicit_none_witness :
    ((∀ am, GetAlertmanagerByName regAB "primary" = some am →
        ∃ p ∈ regAB, p.1 = "primary" ∧ p.2 = am) ∧
      (GetAlertmanagerByName regAB "primary" = none ↔
        ∀ p ∈ regAB, p.1 ≠ "primary")) ∧
    GetAlertmanagerByName regAB "primary" = some amA ∧
    GetAlertmanagerByName regAB "missing" = none :=
  ⟨getByName_found_or_explicit_none regAB "primary", by decide, by decide⟩

/-! Construction claims. -/

/-- An option value is one of the three recognized configuration options. -/
def RecognizedOption (o : AMOption) : Prop :=
  (∃ b, o = WithProxy b) ∨ (∃ t, o = WithRequestTimeout t) ∨ (∃ rt, o = WithHTTPTransport rt)

/-- An option value is a recognized option other than the timeout option. -/
def NonTimeoutOption (o : AMOption) : Prop :=
  (∃ b, o = WithProxy b) ∨ (∃ rt, o = WithHTTPTransport rt)

/-- Every non-timeout recognized option is recognized. -/
theorem NonTimeoutOption.recognized {o : AMOption} (h : NonTimeoutOption o) :
    RecognizedOption o := by
  rcases h with h | h
  · exact Or.inl h
  · exact Or.inr (Or.inr h)

/-- A property preserved by every option in a list is preserved by the
option-application loop. -/
theorem applyOptions_preserve (P : Alertmanager → Prop) :
    ∀ (opts : List AMOption) (am am' : Alertmanager),
      (∀ o ∈ opts, ∀ a a', o a = .ok a' → P a → P a') →
      applyOptions am opts = .ok am' → P am → P am'
  | [], am, am', _, happ, hP => by
      cases happ
      exact hP
  | o :: rest, am, am', hops, happ, hP => by
      unfold applyOptions at happ
      cases ho : o am with
      | error e => rw [ho] at happ; cases happ
      | ok am₁ =>
          rw [ho] at happ
          exact applyOptions_preserve P rest am₁ am'
            (fun o' ho' => hops o' (List.mem_cons_of_mem o ho'))
            happ
            (hops o (List.mem_cons_self o rest) am am₁ ho hP)

/-- Unfolding the option loop one step. -/
theorem applyOptions_cons (am : Alertmanager) (o : AMOption) (rest : List AMOption) :
    applyOptions am (o :: rest) =
      match o am with
      | .error e => .error e
      | .ok am' => applyOptions am' rest := rfl

/-- When the options succeed, the descriptor NewAlertmanager hands back is
the option-loop result, possibly with the bound transport installed. -/
theorem newAlertmanager_fst_cases
    (nt : String → Int → Option RoundTripper → Except String Transport)
    (name uri : String) (opts : List AMOption) (am₁ : Alertmanager)
    (happ : applyOptions (initAlertmanager name uri) opts = .ok am₁)
    (am : Alertmanager) (ham : (NewAlertmanager nt name uri opts).1 = some am) :
    am = am₁ ∨ ∃ t, am = { am₁ with transport := some t } := by
  unfold NewAlertmanager at ham
  rw [happ] at ham
  have ham2 : (match nt am₁.URI am₁.RequestTimeout am₁.httpTransport with
      | Except.error e => ((some am₁ : Option Alertmanager), (some e : Option String))
      | Except.ok t => (some { am₁ with transport := some t }, none)).1 = some am := ham
  cases hnt : nt am₁.URI am₁.RequestTimeout am₁.httpTransport with
  | error e =>
      rw [hnt] at ham2
      exact Or.inl (Option.some.inj ham2).symm
  | ok t =>
      rw [hnt] at ham2
      exact Or.inr ⟨t, (Option.some.inj ham2).symm⟩

/-- Recognized options never touch the snapshot fields or the metrics. -/
theorem recognized_preserves_snapshot {o : AMOption} (h : RecognizedOption o)
    (a a' : Alertmanager) (ho : o a = .ok a') :
    a'.alertGroups = a.alertGroups ∧ a'.silences = a.silences ∧
    a'.colors = a.colors ∧ a'.autocomplete = a.autocomplete ∧
    a'.metrics = a.metrics := by
  rcases h with ⟨b, rfl⟩ | ⟨t, rfl⟩ | ⟨rt, rfl⟩ <;>
    · cases ho
      exact ⟨rfl, rfl, rfl, rfl, rfl⟩

/-- Non-timeout recognized options never touch RequestTimeout. -/
theorem nonTimeout_preserves_timeout {o : AMOption} (h : NonTimeoutOption o)
    (a a' : Alertmanager) (ho : o a = .ok a') :
    a'.RequestTimeout = a.RequestTimeout := by
  rcases h with ⟨b, rfl⟩ | ⟨rt, rfl⟩ <;>
    · cases ho
      rfl

/-- Claim C5: when the option list holds no timeout option (each entry is
one of the other recognized options), every descriptor NewAlertmanager
produces — on the success path or alongside a transport-binding error —
carries the 10-second default RequestTimeout, whatever the transport
binder does. -/
theorem newAlertmanager_default_timeout
    (nt : String → Int → Option RoundTripper → Except String Transport)
    (name uri : String) (opts : List AMOption)
    (hops : ∀ o ∈ opts, NonTimeoutOption o) :
    ∀ am, (NewAlertmanager nt name uri opts).1 = some am →
      am.RequestTimeout = 10 * timeSecond := by
  intro am ham
  cases happ : applyOptions (initAlertmanager name uri) opts with
  | error e =>
      unfold NewAlertmanager at ham
      rw [happ] at ham
      cases ham
  | ok am₁ =>
      have ht : am₁.RequestTimeout = 10 * timeSecond :=
        applyOptions_preserve (fun a => a.RequestTimeout = 10 * timeSecond) opts
          (initAlertmanager name uri) am₁
          (fun o ho a a' hok hP => (nonTimeout_preserves_timeout (hops o ho) a a' hok).trans hP)
          happ rfl
      rcases newAlertmanager_fst_cases nt name uri opts am₁ happ am ham with rfl | ⟨t, rfl⟩
      · exact ht
      · exact ht

theorem newAlertmanager_default_timeout_witness :
    ((NewAlertmanager specNewTransport "primary" "http://a.example/api"
        [WithProxy true]).1.getD (initAlertmanager "x" "http://x")).RequestTimeout =
      10 * timeSecond :=
  newAlertmanager_default_timeout specNewTransport "primary" "http://a.example/api"
    [WithProxy true]
    (by
      intro o ho
      rw [List.mem_singleton] at ho
      exact ho ▸ Or.inl ⟨true, rfl⟩)
    _ rfl

/-- Splitting the option loop over list append. -/
theorem applyOptions_append (l₁ l₂ : List AMOption) :
    ∀ am, applyOptions am (l₁ ++ l₂) =
      match applyOptions am l₁ with
      | .error e => .error e
      | .ok am' => applyOptions am' l₂ := by
  induction l₁ with
  | nil => intro am; rfl
  | cons o rest ih =>
      intro am
      rw [List.cons_append, applyOptions_cons, applyOptions_cons]
      cases ho : o am with
      | error e => rfl
      | ok am₁ => exact ih am₁

/-- Claim C6: if some option in the list fails, construction returns
exactly that error and no descriptor; the options after the failing one
are never applied (the outcome is the same for every tail). -/
theorem newAlertmanager_aborts_on_option_error
    (nt : String → Int → Option RoundTripper → Except String Transport)
    (name uri : String) (pre post : List AMOption) (o : AMOption)
    (am₁ : Alertmanager) (e : String)
    (hpre : applyOptions (initAlertmanager name uri) pre = .ok am₁)
    (ho : o am₁ = .error e) :
    NewAlertmanager nt name uri (pre ++ o :: post) = (none, some e) := by
  have hall : applyOptions (initAlertmanager name uri) (pre ++ o :: post) = .error e := by
    rw [applyOptions_append, hpre]
    show applyOptions am₁ (o :: post) = Except.error e
    rw [applyOptions_cons, ho]
  unfold NewAlertmanager
  rw [hall]

theorem newAlertmanager_aborts_on_option_error_witness :
    NewAlertmanager specNewTransport "primary" "http://a.example/api"
      ([WithProxy true] ++ (fun _ => Except.error "boom") :: [WithRequestTimeout 5]) =
      (none, some "boom") :=
  newAlertmanager_aborts_on_option_error specNewTransport "primary" "http://a.example/api"
    [WithProxy true] [WithRequestTimeout 5] (fun _ => Except.error "boom")
    { initAlertmanager "primary" "http://a.example/api" with ProxyRequests := true }
    "boom" rfl rfl

/-- Claim C7: every descriptor NewAlertmanager produces from recognized
options starts with the empty snapshot — no alert groups, silences,
colors or autocomplete entries — and both fetch-error counters at zero. -/
theorem newAlertmanager_initial_snapshot
    (nt : String → Int → Option RoundTripper → Except String Transport)
    (name uri : String) (opts : List AMOption)
    (hops : ∀ o ∈ opts, RecognizedOption o) :
    ∀ am, (NewAlertmanager nt name uri opts).1 = some am →
      am.alertGroups = [] ∧ am.silences = [] ∧ am.colors = [] ∧ am.autocomplete = [] ∧
      am.metrics.errors.lookup labelValueErrorsAlerts = some 0 ∧
      am.metrics.errors.lookup labelValueErrorsSilences = some 0 := by
  intro am ham
  cases happ : applyOptions (initAlertmanager name uri) opts with
  | error e =>
      unfold NewAlertmanager at ham
      rw [happ] at ham
      cases ham
  | ok am₁ =>
      have hs := applyOptions_preserve
        (fun a => a.alertGroups = [] ∧ a.silences = [] ∧ a.colors = [] ∧
          a.autocomplete = [] ∧ a.metrics = (initAlertmanager name uri).metrics) opts
        (initAlertmanager name uri) am₁
        (fun o ho a a' hok hP => by
          obtain ⟨h1, h2, h3, h4, h5⟩ := recognized_preserves_snapshot (hops o ho) a a' hok
          exact ⟨h1.trans hP.1, h2.trans hP.2.1, h3.trans hP.2.2.1,
            h4.trans hP.2.2.2.1, h5.trans hP.2.2.2.2⟩)
        happ ⟨rfl, rfl, rfl, rfl, rfl⟩
      have hmet : (initAlertmanager name uri).metrics.errors.lookup labelValueErrorsAlerts
            = some 0 ∧
          (initAlertmanager name uri).metrics.errors.lookup labelValueErrorsSilences
            = some 0 := by
        constructor <;> rfl
      rcases newAlertmanager_fst_cases nt name uri opts am₁ happ am ham with rfl | ⟨t, rfl⟩
      · exact ⟨hs.1, hs.2.1, hs.2.2.1, hs.2.2.2.1,
          hs.2.2.2.2 ▸ hmet.1, hs.2.2.2.2 ▸ hmet.2⟩
      · exact ⟨hs.1, hs.2.1, hs.2.2.1, hs.2.2.2.1,
          hs.2.2.2.2 ▸ hmet.1, hs.2.2.2.2 ▸ hmet.2⟩

theorem newAlertmanager_initial_snapshot_witness :
    ((NewAlertmanager specNewTransport "primary" "http://a.example/api"
        [WithProxy true, WithRequestTimeout (30 * timeSecond)]).1.getD
        (initAlertmanager "x" "http://x")).alertGroups = [] ∧
    ((NewAlertmanager specNewTransport "primary" "http://a.example/api"
        [WithProxy true, WithRequestTimeout (30 * timeSecond)]).1.getD
        (initAlertmanager "x" "http://x")).silences = [] ∧
    ((NewAlertmanager specNewTransport "primary" "http://a.example/api"
        [WithProxy true, WithRequestTimeout (30 * timeSecond)]).1.getD
        (initAlertmanager "x" "http://x")).colors = [] ∧
    ((NewAlertmanager specNewTransport "primary" "http://a.example/api"
        [WithProxy true, WithRequestTimeout (30 * timeSecond)]).1.getD
        (initAlertmanager "x" "http://x")).autocomplete = [] ∧
    ((NewAlertmanager specNewTransport "primary" "http://a.example/api"
        [WithProxy true, WithRequestTimeout (30 * timeSecond)]).1.getD
        (initAlertmanager "x" "http://x")).metrics.errors.lookup labelValueErrorsAlerts
      = some 0 ∧
    ((NewAlertmanager specNewTransport "primary" "http://a.example/api"
        [WithProxy true, WithRequestTimeout (30 * timeSecond)]).1.getD
        (initAlertmanager "x" "http://x")).metrics.errors.lookup labelValueErrorsSilences
      = some 0 :=
  newAlertmanager_initial_snapshot specNewTransport "primary" "http://a.example/api"
    [WithProxy true, WithRequestTimeout (30 * timeSecond)]
    (by
      intro o ho
      rw [List.mem_cons, List.mem_singleton] at ho
      rcases ho with rfl | rfl
      · exact Or.inl ⟨true, rfl⟩
      · exact Or.inr (Or.inl ⟨30 * timeSecond, rfl⟩))
    _ rfl

/-! Timeout-option claims. -/

/-- Claim C3 counterexample: the duration 0 is accepted by the timeout
option — it returns success and sets RequestTimeout to 0, and construction
runs to completion, handing back a descriptor whose RequestTimeout is the
non-positive 0 (transport binding instantiated with its spec model). -/
theorem withRequestTimeout_zero_accepted :
    WithRequestTimeout 0 (initAlertmanager "primary" "http://a.example/api") =
      Except.ok { initAlertmanager "primary" "http://a.example/api" with RequestTimeout := 0 } ∧
    (NewAlertmanager specNewTransport "primary" "http://a.example/api"
      [WithRequestTimeout 0]).2 = none ∧
    ((NewAlertmanager specNewTransport "primary" "http://a.example/api"
      [WithRequestTimeout 0]).1.map fun am => am.RequestTimeout) = some 0 :=
  ⟨rfl, rfl, rfl⟩

/-- Claim C3 amended: for every zero or negative duration d, the
set-request-timeout option does not fail — it succeeds and records d as
the RequestTimeout, so construction is not aborted by the option and a
descriptor with non-positive RequestTimeout can be produced. -/
theorem withRequestTimeout_nonpositive_succeeds (d : Int) (am : Alertmanager)
    (_h : d ≤ 0) :
    WithRequestTimeout d am = Except.ok { am with RequestTimeout := d } := rfl

theorem withRequestTimeout_nonpositive_succeeds_witness :
    WithRequestTimeout (-5) amA = Except.ok { amA with RequestTimeout := -5 } :=
  withRequestTimeout_nonpositive_succeeds (-5) amA (by decide)

/-! Bulk-registration claim. -/

/-- Unfolding the startup loop one step. -/
theorem registerAll_cons (r : Registry) (am : Alertmanager) (rest : List Alertmanager) :
    registerAll r (am :: rest) =
      match RegisterAlertmanager r am with
      | (r', none) => registerAll r' rest
      | (_, some _) => none := rfl

/-- Registering descriptors with names and URIs fresh for the registry and
pairwise distinct among themselves succeeds and appends them in order. -/
theorem registerAll_ok (l : List Alertmanager) :
    ∀ (r : Registry),
      (∀ am ∈ l, (r.find? fun p => p.1 = am.Name) = none) →
      (∀ am ∈ l, (r.find? fun p => p.2.URI = am.URI) = none) →
      l.Pairwise (fun a b => a.Name ≠ b.Name) →
      l.Pairwise (fun a b => a.URI ≠ b.URI) →
      registerAll r l = some (r ++ l.map fun am => (am.Name, am)) := by
  induction l with
  | nil =>
      intro r _ _ _ _
      simp [registerAll]
  | cons am rest ih =>
      intro r hn hu hpn hpu
      have hreg : RegisterAlertmanager r am = (r ++ [(am.Name, am)], none) :=
        (register_success_iff r am (r ++ [(am.Name, am)])).mpr
          ⟨hn am (List.mem_cons_self am rest), hu am (List.mem_cons_self am rest), rfl⟩
      rw [registerAll_cons, hreg]
      show registerAll (r ++ [(am.Name, am)]) rest =
        some (r ++ List.map (fun am => (am.Name, am)) (am :: rest))
      have hn' : ∀ b ∈ rest, ((r ++ [(am.Name, am)]).find? fun p => p.1 = b.Name) = none := by
        intro b hb
        have hne : am.Name ≠ b.Name := (List.pairwise_cons.mp hpn).1 b hb
        rw [List.find?_append, hn b (List.mem_cons_of_mem am hb)]
        simp [List.find?, hne]
      have hu' : ∀ b ∈ rest,
          ((r ++ [(am.Name, am)]).find? fun p => p.2.URI = b.URI) = none := by
        intro b hb
        have hne : am.URI ≠ b.URI := (List.pairwise_cons.mp hpu).1 b hb
        rw [List.find?_append, hu b (List.mem_cons_of_mem am hb)]
        simp [List.find?, hne]
      rw [ih (r ++ [(am.Name, am)]) hn' hu' (List.pairwise_cons.mp hpn).2
        (List.pairwise_cons.mp hpu).2]
      simp

/-- The registry built by a fully successful startup holds exactly the
registered descriptors. -/
theorem getAlertmanagers_of_map (l : List Alertmanager) :
    GetAlertmanagers ([] ++ l.map fun am => (am.Name, am)) = l := by
  induction l with
  | nil => rfl
  | cons a t ih =>
      show a :: GetAlertmanagers ([] ++ t.map fun am => (am.Name, am)) = a :: t
      rw [ih]

/-- Claim C8: registering N descriptors with pairwise-distinct names and
URIs succeeds in any order, and GetAlertmanagers then returns exactly those
N descriptors — the same collection up to permutation whatever the
registration order was. -/
theorem getAlertmanagers_after_registrations (l₁ l₂ : List Alertmanager)
    (hperm : l₁.Perm l₂)
    (hn : l₁.Pairwise fun a b => a.Name ≠ b.Name)
    (hu : l₁.Pairwise fun a b => a.URI ≠ b.URI) :
    ∃ r₁ r₂, registerAll [] l₁ = some r₁ ∧ registerAll [] l₂ = some r₂ ∧
      GetAlertmanagers r₁ = l₁ ∧ GetAlertmanagers r₂ = l₂ ∧
      (GetAlertmanagers r₁).length = l₁.length ∧
      (GetAlertmanagers r₂).Perm (GetAlertmanagers r₁) := by
  have hn₂ : l₂.Pairwise fun a b => a.Name ≠ b.Name :=
    (hperm.pairwise_iff fun h => Ne.symm h).mp hn
  have hu₂ : l₂.Pairwise fun a b => a.URI ≠ b.URI :=
    (hperm.pairwise_iff fun h => Ne.symm h).mp hu
  have e₁ := registerAll_ok l₁ [] (fun am _ => rfl) (fun am _ => rfl) hn hu
  have e₂ := registerAll_ok l₂ [] (fun am _ => rfl) (fun am _ => rfl) hn₂ hu₂
  refine ⟨[] ++ l₁.map fun am => (am.Name, am), [] ++ l₂.map fun am => (am.Name, am),
    e₁, e₂, getAlertmanagers_of_map l₁, getAlertmanagers_of_map l₂, ?_, ?_⟩
  · rw [getAlertmanagers_of_map l₁]
  · rw [getAlertmanagers_of_map l₁, getAlertmanagers_of_map l₂]
    exact hperm.symm

theorem getAlertmanagers_after_registrations_witness :
    ∃ r₁ r₂, registerAll [] [amA, amB] = some r₁ ∧ registerAll [] [amB, amA] = some r₂ ∧
      GetAlertmanagers r₁ = [amA, amB] ∧ GetAlertmanagers r₂ = [amB, amA] ∧
      (GetAlertmanagers r₁).length = [amA, amB].length ∧
      (GetAlertmanagers r₂).Perm (GetAlertmanagers r₁) :=
  getAlertmanagers_after_registrations [amA, amB] [amB, amA]
    (List.Perm.swap amB amA [])
    (by
      rw [List.pairwise_cons]
      refine ⟨?_, List.pairwise_singleton _ _⟩
      intro b hb
      rw [List.mem_singleton] at hb
      subst hb
      decide)
    (by
      rw [List.pairwise_cons]
      refine ⟨?_, List.pairwise_singleton _ _⟩
      intro b hb
      rw [List.mem_singleton] at hb
      subst hb
      decide)

end Upstream
